import Mathlib

/-!
Shallow embedding of `src/requester.py` (ffmpeg_requester): the instruction
parser, existing-output index, request builder, command synthesizer and the
backup bookkeeping of `get_requesters` / `Requester` / `main`.

Python strings are modelled as Lean `String` (a list of characters); the
filesystem, the ffprobe output and the pytube download collaborator are
modelled as an explicit environment record.  Python exceptions are modelled
with `Except`: `AssertionError` (raised by the `assert` statements and by
rignak's `ExistingFilename`) carries its message; `ValueError` models the
error raised by `int()` on a non-numeric string; `pytubeError` models any
pytube exception other than `BotDetection`.
-/

namespace FfmpegRequester

/-- Models Python `s.startswith(p)`: `p` is a prefix of `s`. -/
def pyStartsWith (s p : String) : Bool :=
  decide (s.data.take p.data.length = p.data)

/-- Models Python `s.endswith(p)`: `p` is a suffix of `s`. -/
def pyEndsWith (s p : String) : Bool :=
  decide (s.data.drop (s.data.length - p.data.length) = p.data)

/-- `n` occurs as a contiguous sublist of the second argument. -/
def containsList (n : List Char) : List Char → Bool
  | [] => decide (n = [])
  | a :: rest => decide ((a :: rest).take n.length = n) || containsList n rest

/-- Models Python `needle in hay` on strings (substring containment). -/
def strContains (needle hay : String) : Bool :=
  containsList needle.data hay.data

/-- Models the Python slice `s[a:b]` for `0 <= a <= b`. -/
def strSlice (s : String) (a b : Nat) : String :=
  String.mk ((s.data.drop a).take (b - a))

/-- Models Python `s.replace(c, "")` for a one-character pattern `c`:
every occurrence of the character is deleted. -/
def replaceDrop (c : Char) (l : List Char) : List Char :=
  l.filter (fun x => x ≠ c)

/-- Models Python `s.replace(a, b)` for one-character pattern and
replacement: every occurrence of `a` becomes `b`. -/
def replaceChar (a b : Char) (l : List Char) : List Char :=
  l.map (fun x => if x = a then b else x)

/-- The sanitization applied to the output filename in `get_requesters`
(line 226): `output_filename.replace("?", "").replace("'", "").replace('"', "'")`. -/
def sanitizeOutputName (s : String) : String :=
  String.mk (replaceChar '"' '\'' (replaceDrop '\'' (replaceDrop '?' s.data)))

/-- Collapses every run of the character `c` to a single occurrence.
This is the effect of the loop `while '\t\t' in line: line =
line.replace('\t\t', '\t')` in `get_requesters` (lines 218-219): each pass
shrinks every maximal run of tabs until only single tabs remain. -/
def collapseRuns (c : Char) : List Char → List Char
  | [] => []
  | [a] => [a]
  | a :: b :: rest =>
    if a = c ∧ b = c then collapseRuns c (b :: rest)
    else a :: collapseRuns c (b :: rest)

/-- Models Python `line.split(sep)` for a one-character separator:
empty fields are kept, and the empty string yields `[[]]`. -/
def splitOnChar (c : Char) : List Char → List (List Char)
  | [] => [[]]
  | a :: rest =>
    match splitOnChar c rest with
    | [] => [[]]
    | h :: t => if a = c then [] :: h :: t else (a :: h) :: t

/-- The field decomposition of one instruction line (lines 218-220 of
`get_requesters`): tab runs collapsed, then split on tabs. -/
def splitFields (line : String) : List String :=
  (splitOnChar '\t' (collapseRuns '\t' line.data)).map String.mk

/-- Models POSIX `os.path.basename`: the part of the path after the last
slash. -/
def basename (s : String) : String :=
  String.mk ((splitOnChar '/' s.data).foldl (fun _ x => x) [])

/-- Models `os.path.join(a, b)` (POSIX): `b` if it is absolute, else `a`
and `b` glued with a single slash. -/
def pjoin (a b : String) : String :=
  if pyStartsWith b "/" = true then b
  else if a = "" then b
  else if pyEndsWith a "/" = true then a ++ b
  else a ++ "/" ++ b

/-- Index of the last occurrence of `c` in `l`, if any
(models Python `str.rfind` restricted to presence information). -/
def rfindChar (c : Char) (l : List Char) : Option Nat :=
  (List.findIdx? (fun x => x = c) l.reverse).map (fun i => l.length - 1 - i)

/-- Models `os.path.splitext(p)[0]` (POSIX rule): cut at the last dot,
provided the dot lies inside the basename and some character of the
basename before it is not a dot. -/
def splitextRoot (p : String) : String :=
  match rfindChar '.' p.data with
  | none => p
  | some di =>
    let si := match rfindChar '/' p.data with
      | none => 0
      | some k => k + 1
    if si ≤ di ∧ ((p.data.drop si).take (di - si)).any (fun ch => ch ≠ '.') then
      String.mk (p.data.take di)
    else p

/-- `os.path.basename(os.path.splitext(p)[0])`, as in the title metadata
tag of `set_output_file` (line 110). -/
def titleOf (p : String) : String :=
  basename (splitextRoot p)

/-- Value of a decimal digit character. -/
def digitVal (c : Char) : Option Nat :=
  if c.isDigit then some (c.toNat - 48) else none

/-- Decimal value of a nonempty all-digit character list. -/
def parseDigits : List Char → Option Nat
  | [] => none
  | l =>
    l.foldl
      (fun acc c =>
        match acc, digitVal c with
        | some a, some d => some (a * 10 + d)
        | _, _ => none)
      (some 0)

/-- Models Python `int(s)` on the strings arising here: optional
surrounding spaces, an optional sign, then a nonempty run of decimal
digits; anything else raises `ValueError` (here: `none`). -/
def pyInt (s : String) : Option Int :=
  let l := (((s.data.dropWhile (fun c => c = ' ')).reverse.dropWhile
    (fun c => c = ' ')).reverse)
  match l with
  | '-' :: rest => (parseDigits rest).map (fun n => -(n : Int))
  | '+' :: rest => (parseDigits rest).map (fun n => (n : Int))
  | _ => (parseDigits l).map (fun n => (n : Int))

/-- The timestamp-to-seconds conversion of `set_duration` (lines 128-131):
`int(ts[:2]) * 3600 + int(ts[3:5]) * 60 + int(ts[6:8])`. -/
def timeToSeconds (ts : String) : Option Int :=
  match pyInt (strSlice ts 0 2), pyInt (strSlice ts 3 5), pyInt (strSlice ts 6 8) with
  | some h, some m, some s => some (h * 3600 + m * 60 + s)
  | _, _, _ => none

/-- Models the Python format spec `{n:02d}` for a nonnegative integer. -/
def pad2 (n : Nat) : String :=
  if n < 10 then "0" ++ toString n else toString n

/-- The duration rendering of `set_duration` (line 136):
`f"{d // 3600:02d}:{d % 3600 // 60:02d}:{d % 60:02d}"`. -/
def fmtHMS (d : Nat) : String :=
  pad2 (d / 3600) ++ ":" ++ pad2 (d % 3600 / 60) ++ ":" ++ pad2 (d % 60)

/-- Python exceptions reachable in this code. -/
inductive PyErr where
  | assertionError (msg : String)
  | valueError
  | pytubeError
deriving DecidableEq, Repr

/-- Outcome of the pytube download collaborator
(`get_input_from_youtube`, lines 66-76). -/
inductive YtOutcome where
  | success (path : String)
  | botDetection
  | failure
deriving DecidableEq, Repr

/-- The ambient state the program consults: `os.path.exists`,
`os.path.getsize`, the basenames found by the `glob` of `get_exists`,
the ffprobe stdout for a given input file, and the pytube collaborator. -/
structure Env where
  onDisk : String → Bool
  size : String → Nat
  mkvBasenames : List String
  probeOut : String → String
  yt : String → YtOutcome

/-- Modelled from the spec: the injected configuration surface (input
root, output root, backup root) provided by `ffmpeg_requester.local_config`,
which is not part of the sources. -/
structure RConfig where
  inputFolder : String
  outputFolder : String
  backupFolder : String

/-- `self.options` initial value (lines 51-53). -/
def base_options : List String := ["-v quiet"]

/-- `self.audio_options` (lines 47-50). -/
def audio_options : List String := ["-codec:a libmp3lame", "-qscale:a 3"]

/-- `self.video_options` (lines 35-46). -/
def video_options : List String :=
  ["-c:v libsvtav1",
   "-c:s copy",
   "-c:a copy",
   "-map 0:a",
   "-map 0:v:0",
   "-map 0:s?",
   "-force_key_frames 0",
   "-crf 32",
   "-threads 3",
   "-pix_fmt yuv420p10le"]

/-- The fields of a `Requester` object relevant after `__init__`
(lines 27-63); `input_filename` is `none` while still the initial `None`. -/
structure Requester where
  input_filename : Option String
  output_filename : String
  duration : String
  start : String
  options : List String
  ready : Bool
deriving DecidableEq, Repr

/-- Local resolution of the input (lines 91-94): join with the input root
and require existence; a missing file raises `AssertionError` with the
message `f"{basename}: Source not found."` (rignak's `ExistingFilename`,
modelled from the spec: local resolution requires the resulting path to
exist, and failure fails the request). -/
def localInput (env : Env) (cfg : RConfig) (input_filename : String) :
    Except PyErr String :=
  if env.onDisk (pjoin cfg.inputFolder input_filename) = true then
    .ok (pjoin cfg.inputFolder input_filename)
  else
    .error (.assertionError
      (basename (pjoin cfg.inputFolder input_filename) ++ ": Source not found."))

/-- `Requester.set_input_file` (lines 78-96): a reference containing
`youtube.com` is fetched through pytube, `BotDetection` falls through to
local resolution, any other pytube failure propagates; otherwise the
reference is resolved locally. -/
def set_input_file (env : Env) (cfg : RConfig) (input_filename : String) :
    Except PyErr String :=
  if strContains "youtube.com" input_filename = true then
    match env.yt input_filename with
    | .success p =>
      if env.onDisk p = true then .ok p
      else .error (.assertionError (p ++ ": does not exist."))
    | .botDetection => localInput env cfg input_filename
    | .failure => .error .pytubeError
  else localInput env cfg input_filename

/-- The resize option chosen by `add_resize_option` (lines 148-155):
scale to height 720 with even width when the probed dimension string
contains `1080`, else scale to the nearest even width and height. -/
def resizeOption (env : Env) (input_resolved : String) : String :=
  if strContains "1080" (env.probeOut input_resolved) = true then
    "-vf \"scale=trunc(iw/2)*2:720\""
  else
    "-vf \"scale=trunc(iw/2)*2:trunc(ih/2)*2\""

/-- `Requester.set_output_file` (lines 98-115): joins the output root,
then extends the option list by extension (`.mp3`: audio options plus a
title metadata tag; `.mkv`: resize option appended to the video options,
then the video options; otherwise nothing). Returns the joined output
path and the final `self.options`. -/
def set_output_file (env : Env) (cfg : RConfig) (input_resolved : String)
    (output_filename : String) : String × List String :=
  let out := pjoin cfg.outputFolder output_filename
  if pyEndsWith out ".mp3" = true then
    (out, base_options ++ audio_options ++
      ["-metadata title=\"" ++ titleOf out ++ "\""])
  else if pyEndsWith out ".mkv" = true then
    (out, base_options ++ (video_options ++ [resizeOption env input_resolved]))
  else (out, base_options)

/-- `Requester.set_start` (lines 138-146): no seek option for the sentinel
`00:00:00`, otherwise `-ss` followed by the original timestamp text. -/
def set_start (start_timestring : String) : String :=
  if start_timestring = "00:00:00" then ""
  else "-ss " ++ start_timestring

/-- `Requester.set_duration` (lines 117-136): nothing for the sentinel end
time; otherwise both timestamps are parsed (a non-numeric field raises
`ValueError`), the difference must be positive (else `AssertionError`
naming the output basename), and the duration option is formatted. -/
def set_duration (start_timestring end_timestring output_path : String) :
    Except PyErr String :=
  if end_timestring = "00:00:00" then .ok ""
  else
    match timeToSeconds start_timestring, timeToSeconds end_timestring with
    | some s, some e =>
      if e - s > 0 then .ok ("-t " ++ fmtHMS (e - s).toNat)
      else .error (.assertionError (basename output_path ++ ": Check duration."))
    | _, _ => .error .valueError

/-- `Requester.__init__` (lines 19-63): runs the four setters in order
inside `try`, catching only `AssertionError` (in which case the fields set
so far persist and `ready` stays `False`); any other exception propagates.
On success `ready` is `True` unless the output filename argument starts
with `-`. -/
def mkRequester (env : Env) (cfg : RConfig)
    (input_filename output_filename start_datestring end_datestring : String) :
    Except PyErr Requester :=
  let st0 : Requester :=
    { input_filename := none, output_filename := output_filename,
      duration := "", start := "", options := base_options, ready := false }
  match set_input_file env cfg input_filename with
  | .error (.assertionError _) => .ok st0
  | .error e => .error e
  | .ok inp =>
    let p := set_output_file env cfg inp output_filename
    let start := set_start start_datestring
    match set_duration start_datestring end_datestring p.1 with
    | .error (.assertionError _) =>
      .ok { input_filename := some inp, output_filename := p.1,
            duration := "", start := start, options := p.2, ready := false }
    | .error e => .error e
    | .ok dur =>
      .ok { input_filename := some inp, output_filename := p.1,
            duration := dur, start := start, options := p.2,
            ready := !(pyStartsWith output_filename "-") }

/-- The logger calls issued inside `get_requesters` and `run`, kept as
structured events (constructor = message template). `checkDelimiters` and
`pleaseCheck` are `logger.warning` calls; `alreadyProcessed` is a plain
`logger` call. -/
inductive LogEvent where
  | checkDelimiters (fields : List String)
  | alreadyProcessed (filename : String)
  | pleaseCheck (filename : String)
deriving DecidableEq, Repr

/-- The mutable lists of `get_requesters` (lines 201-206): the `args`
tuples `(input, output, start, end)`, the collected `Requester` objects,
the local `commands` list, and the log events emitted so far. -/
structure GRState where
  args : List (String × String × String × String)
  requesters : List Requester
  commands : List String
  log : List LogEvent
deriving DecidableEq, Repr

/-- The empty state at entry of `get_requesters`. -/
def initGR : GRState := { args := [], requesters := [], commands := [], log := [] }

/-- The predicate returned by `get_exists` (lines 185-198): membership of
the basename in the list of basenames globbed from the configured roots
(`env.mkvBasenames` models that glob result). -/
def existsQ (env : Env) (filename : String) : Bool :=
  env.mkvBasenames.contains (basename filename)

/-- The body of the `get_requesters` loop for one line that is neither a
comment nor a stop line (lines 218-241): collapse tabs, split, warn on a
field count above 4, skip other non-4 counts; for exactly four fields
sanitize the output name, record the args tuple, skip on index hit or
args-only mode, build the `Requester`, skip unready ones, and for an
output already on disk log it (warning plus re-queue of the original line
into the local `commands` when it is smaller than 1024 bytes); otherwise
collect the requester. -/
def handleLine (env : Env) (cfg : RConfig) (return_args : Bool)
    (st : GRState) (line : String) : Except PyErr GRState :=
  match splitFields line with
  | [output0, start_ts, end_ts, input_fn] =>
    let output_fn := sanitizeOutputName output0
    let st1 : GRState :=
      { st with args := st.args ++ [(input_fn, output_fn, start_ts, end_ts)] }
    if existsQ env output_fn || return_args then .ok st1
    else
      match mkRequester env cfg input_fn output_fn start_ts end_ts with
      | .error e => .error e
      | .ok r =>
        if r.ready = false then .ok st1
        else if env.onDisk r.output_filename = true then
          if env.size r.output_filename < 1024 then
            .ok { st1 with
                  log := st1.log ++ [.alreadyProcessed r.output_filename,
                                     .pleaseCheck r.output_filename],
                  commands := st1.commands ++ [line ++ "\n"] }
          else
            .ok { st1 with log := st1.log ++ [.alreadyProcessed r.output_filename] }
        else .ok { st1 with requesters := st1.requesters ++ [r] }
  | sl =>
    if sl.length > 3 then .ok { st with log := st.log ++ [.checkDelimiters sl] }
    else .ok st

/-- The loop of `get_requesters` (lines 207-241): comment lines are
skipped, a line starting with `STOP` breaks the loop, every other line is
handled by `handleLine`; an uncaught exception aborts the whole batch. -/
def processLines (env : Env) (cfg : RConfig) (return_args : Bool) :
    List String → GRState → Except PyErr GRState
  | [], st => .ok st
  | line :: rest, st =>
    if pyStartsWith line "#" = true then
      processLines env cfg return_args rest st
    else if pyStartsWith line "STOP" = true then .ok st
    else
      match handleLine env cfg return_args st line with
      | .error e => .error e
      | .ok st2 => processLines env cfg return_args rest st2

/-- The string interpolated for `None` by a Python f-string. -/
def inputName (r : Requester) : String :=
  match r.input_filename with
  | some p => p
  | none => "None"

/-- The command string built by `Requester.run` (lines 160-161):
`f'ffmpeg {start} -i "{input}" {duration} {" ".join(options)} "{output}"'`. -/
def mkCommand (r : Requester) : String :=
  "ffmpeg " ++ r.start ++ " -i \"" ++ inputName r ++ "\" " ++ r.duration ++
    " " ++ String.intercalate " " r.options ++ " \"" ++ r.output_filename ++ "\""

/-- The `commands` list that `main` (lines 263-272) accumulates and hands
to `backup`: one `run` command per collected requester, each
newline-terminated. The `commands` list local to `get_requesters` is a
different variable and is discarded when `get_requesters` returns. -/
def mainCommands (env : Env) (cfg : RConfig) (lines : List String) :
    Except PyErr (List String) :=
  match processLines env cfg false lines initGR with
  | .error e => .error e
  | .ok st => .ok (st.requesters.map (fun r => mkCommand r ++ "\n"))

/-- The content `backup` (lines 174-182) writes: `file.writelines(commands)`
concatenates the lines verbatim. -/
def backupContent (commands : List String) : String :=
  String.join commands

/-- The command synthesized the way §4.4 of the spec words it: the parts
in fixed order — tool name, seek option when present, `-i` plus the
double-quoted input, duration option when present, the space-joined option
list, the double-quoted output — each present part separated from the
previous one by a single space, absent parts omitted entirely. -/
def commandSpec (r : Requester) : String :=
  "ffmpeg"
    ++ (if r.start = "" then "" else " " ++ r.start)
    ++ " " ++ "-i \"" ++ inputName r ++ "\""
    ++ (if r.duration = "" then "" else " " ++ r.duration)
    ++ " " ++ String.intercalate " " r.options
    ++ " " ++ "\"" ++ r.output_filename ++ "\""

/-- Collapses runs of spaces to single spaces (used only to compare the
synthesized command with its spec-worded form up to the width of the
separating blanks). -/
def collapseSpaces (s : String) : String :=
  String.mk (collapseRuns ' ' s.data)

deriving instance DecidableEq for Except

/-! ## Helper lemmas -/

/-- A line starting with `STOP` does not start with `#`. -/
theorem stop_not_comment (s : String) (h : pyStartsWith s "STOP" = true) :
    pyStartsWith s "#" = false := by
  simp only [pyStartsWith, decide_eq_true_eq] at h
  simp only [pyStartsWith, decide_eq_false_iff_not]
  intro hc
  have h4 : ("STOP" : String).data.length = 4 := rfl
  have h1 : ("#" : String).data.length = 1 := rfl
  rw [h4] at h
  rw [h1] at hc
  have ht : List.take 1 s.data = List.take 1 (List.take 4 s.data) := by
    rw [List.take_take]
    norm_num
  rw [h] at ht
  exact absurd (hc.symm.trans ht) (by decide)

/-! ## C3: seek and duration options -/

/-- C3: for a job with a non-sentinel `endTime` whose timestamps parse
and whose difference is positive, the duration option is `-t ` followed by
`end - start` seconds rendered as zero-padded `HH:MM:SS`; for a sentinel
`endTime` no duration option is produced; for a non-sentinel `startTime`
the seek option is `-ss ` followed by the original timestamp text
verbatim, and for a sentinel `startTime` no seek option is produced. -/
theorem c3_seek_and_duration_options (s e outp : String) (ds de : Int) :
    (e ≠ "00:00:00" → timeToSeconds s = some ds → timeToSeconds e = some de →
      de - ds > 0 →
      set_duration s e outp = .ok ("-t " ++ fmtHMS (de - ds).toNat))
    ∧ (e = "00:00:00" → set_duration s e outp = .ok "")
    ∧ (s ≠ "00:00:00" → set_start s = "-ss " ++ s)
    ∧ (s = "00:00:00" → set_start s = "") := by
  refine ⟨?_, ?_, ?_, ?_⟩
  · intro he hs hd hpos
    simp [set_duration, he, hs, hd, hpos]
  · intro he
    simp [set_duration, he]
  · intro hs
    simp [set_start, hs]
  · intro hs
    simp [set_start, hs]

/-- Witness for C3, at the spec's own example: startTime `00:16:41` and
endTime `00:22:35` yield the duration option `-t 00:05:54` and the seek
option `-ss 00:16:41`. -/
theorem c3_seek_and_duration_options_witness :
    set_duration "00:16:41" "00:22:35" "out/Clip.mkv" = .ok "-t 00:05:54"
    ∧ set_start "00:16:41" = "-ss 00:16:41" := by
  have h := c3_seek_and_duration_options "00:16:41" "00:22:35" "out/Clip.mkv"
    1001 1355
  exact ⟨(h.1 (by decide) (by decide) (by decide) (by decide)).trans (by decide),
    h.2.2.1 (by decide)⟩

/-! ## C6: the parser on well-formed four-field lines -/

/-- C6: a raw line that is not a comment and not a stop line and that,
after collapsing runs of tabs, splits into exactly four fields, yields
exactly one job descriptor: the four fields in the order the code stores
them (`input`, `output`, `start`, `end`), with the output name sanitized
by deleting `?`, deleting `'` and turning `"` into `'`. -/
theorem c6_parser_four_fields (env : Env) (cfg : RConfig) (st : GRState)
    (line o s e i : String)
    (hc : pyStartsWith line "#" = false)
    (hstop : pyStartsWith line "STOP" = false)
    (hsplit : splitFields line = [o, s, e, i]) :
    processLines env cfg true [line] st =
      .ok { st with args := st.args ++ [(i, sanitizeOutputName o, s, e)] } := by
  simp [processLines, hc, hstop, handleLine, hsplit]

/-- Witness for C6 on a line with a doubled tab and an output name
containing `?` and `"`: the descriptor holds the sanitized name. -/
theorem c6_parser_four_fields_witness :
    processLines
      { onDisk := fun _ => false, size := fun _ => 0, mkvBasenames := [],
        probeOut := fun _ => "", yt := fun _ => .failure }
      { inputFolder := "in", outputFolder := "out", backupFolder := "bak" }
      true ["a?b\"c.mkv\t00:00:01\t\t00:00:02\tin.mkv"] initGR =
      .ok { initGR with
            args := [("in.mkv", "ab'c.mkv", "00:00:01", "00:00:02")] } := by
  have h := c6_parser_four_fields
    { onDisk := fun _ => false, size := fun _ => 0, mkvBasenames := [],
      probeOut := fun _ => "", yt := fun _ => .failure }
    { inputFolder := "in", outputFolder := "out", backupFolder := "bak" }
    initGR "a?b\"c.mkv\t00:00:01\t\t00:00:02\tin.mkv"
    "a?b\"c.mkv" "00:00:01" "00:00:02" "in.mkv"
    (by decide) (by decide) (by decide)
  exact h.trans (by decide)

/-! ## C10: a STOP-prefixed line halts parsing -/

/-- C10: any line starting with the prefix `STOP` (not only the exact
sentinel) breaks the loop: the run over `ls1 ++ stopLine :: ls2` equals
the run over `ls1` alone, so neither the stop line nor any later line
contributes a descriptor or a request. -/
theorem c10_stop_prefix_halts (env : Env) (cfg : RConfig) (ra : Bool)
    (ls1 ls2 : List String) (stopLine : String)
    (h : pyStartsWith stopLine "STOP" = true) (st : GRState) :
    processLines env cfg ra (ls1 ++ stopLine :: ls2) st =
      processLines env cfg ra ls1 st := by
  induction ls1 generalizing st with
  | nil =>
    simp [processLines, stop_not_comment stopLine h, h]
  | cons a rest ih =>
    simp only [List.cons_append, processLines]
    by_cases hca : pyStartsWith a "#" = true
    · simp only [hca, if_true]
      exact ih st
    · by_cases hsa : pyStartsWith a "STOP" = true
      · simp [hca, hsa]
      · simp only [hca, hsa, if_false]
        cases handleLine env cfg ra st a with
        | error e => rfl
        | ok st2 => exact ih st2

/-- Witness for C10: a `STOPPED` line (merely prefixed by `STOP`) makes
the run ignore it and everything after it. -/
theorem c10_stop_prefix_halts_witness :
    processLines
      { onDisk := fun _ => false, size := fun _ => 0, mkvBasenames := [],
        probeOut := fun _ => "", yt := fun _ => .failure }
      { inputFolder := "in", outputFolder := "out", backupFolder := "bak" }
      true ["#c", "STOPPED", "x.mkv\t00:00:01\t00:00:02\tin.mkv"] initGR =
      .ok initGR := by
  have h := c10_stop_prefix_halts
    { onDisk := fun _ => false, size := fun _ => 0, mkvBasenames := [],
      probeOut := fun _ => "", yt := fun _ => .failure }
    { inputFolder := "in", outputFolder := "out", backupFolder := "bak" }
    true ["#c"] ["x.mkv\t00:00:01\t00:00:02\tin.mkv"] "STOPPED"
    (by decide) initGR
  exact h.trans (by decide)

/-- A successful input resolution returns a path that exists. -/
theorem set_input_file_exists (env : Env) (cfg : RConfig) (i p : String)
    (h : set_input_file env cfg i = .ok p) : env.onDisk p = true := by
  unfold set_input_file localInput at h
  split at h
  · split at h
    · split at h
      · cases h
        assumption
      · cases h
    · split at h
      · cases h
        assumption
      · cases h
    · cases h
  · split at h
    · cases h
      assumption
    · cases h

/-- A successful duration computation means the end time was the sentinel
or both timestamps parsed with a positive difference. -/
theorem set_duration_ok (s e outp d : String)
    (h : set_duration s e outp = .ok d) :
    e = "00:00:00" ∨ ∃ ds de : Int, timeToSeconds s = some ds ∧
      timeToSeconds e = some de ∧ de - ds > 0 := by
  unfold set_duration at h
  split at h
  · exact Or.inl (by assumption)
  · refine Or.inr ?_
    split at h
    · rename_i ds de hs he
      refine ⟨ds, de, hs, he, ?_⟩
      split at h
      · assumption
      · cases h
    · cases h

/-! ## C8: the readiness invariant -/

/-- C8: every constructed request with `ready = true` went through all of
input resolution (so the resolved input path exists in the modelled
filesystem at validation time), output path construction, and time-window
validation (the window is positive or absent), and its sanitized output
filename argument does not begin with `-`. -/
theorem c8_ready_invariant (env : Env) (cfg : RConfig)
    (i o s e : String) (st : Requester)
    (hok : mkRequester env cfg i o s e = .ok st)
    (hready : st.ready = true) :
    (∃ p, st.input_filename = some p ∧ env.onDisk p = true)
    ∧ (e = "00:00:00" ∨ ∃ ds de : Int, timeToSeconds s = some ds ∧
        timeToSeconds e = some de ∧ de - ds > 0)
    ∧ pyStartsWith o "-" = false := by
  unfold mkRequester at hok
  split at hok
  · cases hok
    cases hready
  · cases hok
  · rename_i inp hin
    dsimp only at hok
    split at hok
    · cases hok
      cases hready
    · cases hok
    · rename_i dur hdur
      cases hok
      simp only at hready
      refine ⟨⟨inp, rfl, set_input_file_exists env cfg i inp hin⟩,
        set_duration_ok s e _ dur hdur, ?_⟩
      simpa using hready

/-- Witness for C8: a concrete ready request; its input exists, its
window is positive and its output name does not begin with `-`. -/
theorem c8_ready_invariant_witness :
    (∃ p, (Requester.mk (some "in/src.mkv") "out/b.mkv" "-t 00:00:01"
        "-ss 00:00:01"
        (base_options ++ (video_options ++ ["-vf \"scale=trunc(iw/2)*2:720\""]))
        true).input_filename = some p ∧
      (fun q => q == "in/src.mkv") p = true)
    ∧ ("00:00:02" = "00:00:00" ∨ ∃ ds de : Int,
        timeToSeconds "00:00:01" = some ds ∧
        timeToSeconds "00:00:02" = some de ∧ de - ds > 0)
    ∧ pyStartsWith "b.mkv" "-" = false := by
  have h := c8_ready_invariant
    { onDisk := fun q => q == "in/src.mkv", size := fun _ => 0,
      mkvBasenames := [], probeOut := fun _ => "1920x1080",
      yt := fun _ => .failure }
    { inputFolder := "in", outputFolder := "out", backupFolder := "bak" }
    "src.mkv" "b.mkv" "00:00:01" "00:00:02"
    (Requester.mk (some "in/src.mkv") "out/b.mkv" "-t 00:00:01"
      "-ss 00:00:01"
      (base_options ++ (video_options ++ ["-vf \"scale=trunc(iw/2)*2:720\""]))
      true)
    (by decide) rfl
  exact h

/-! ## C9: non-positive time windows are rejected -/

/-- C9: when the end time is not the sentinel, both timestamps parse and
the difference is zero or negative, time-window validation fails with an
`AssertionError` whose message names the output file's basename, and the
constructed request is not ready. -/
theorem c9_nonpositive_duration (env : Env) (cfg : RConfig)
    (i o s e rp : String) (ds de : Int)
    (hin : set_input_file env cfg i = .ok rp)
    (he : e ≠ "00:00:00")
    (hs : timeToSeconds s = some ds)
    (hde : timeToSeconds e = some de)
    (hnp : de - ds ≤ 0) :
    set_duration s e (set_output_file env cfg rp o).1 =
      .error (.assertionError
        (basename (set_output_file env cfg rp o).1 ++ ": Check duration."))
    ∧ ∃ st, mkRequester env cfg i o s e = .ok st ∧ st.ready = false := by
  have hd : set_duration s e (set_output_file env cfg rp o).1 =
      .error (.assertionError
        (basename (set_output_file env cfg rp o).1 ++ ": Check duration.")) := by
    simp [set_duration, he, hs, hde, show ¬(de - ds > 0) from not_lt.mpr hnp]
  refine ⟨hd, ?_⟩
  unfold mkRequester
  rw [hin]
  simp only [hd]
  exact ⟨_, rfl, rfl⟩

/-- Witness for C9: equal start and end times produce the duration
assertion error naming `b.mkv` and an unready request. -/
theorem c9_nonpositive_duration_witness :
    set_duration "00:05:00" "00:05:00"
      (set_output_file
        { onDisk := fun q => q == "in/src.mkv", size := fun _ => 0,
          mkvBasenames := [], probeOut := fun _ => "1920x1080",
          yt := fun _ => .failure }
        { inputFolder := "in", outputFolder := "out", backupFolder := "bak" }
        "in/src.mkv" "b.mkv").1 =
      .error (.assertionError
        (basename (set_output_file
          { onDisk := fun q => q == "in/src.mkv", size := fun _ => 0,
            mkvBasenames := [], probeOut := fun _ => "1920x1080",
            yt := fun _ => .failure }
          { inputFolder := "in", outputFolder := "out", backupFolder := "bak" }
          "in/src.mkv" "b.mkv").1 ++ ": Check duration."))
    ∧ ∃ st, mkRequester
        { onDisk := fun q => q == "in/src.mkv", size := fun _ => 0,
          mkvBasenames := [], probeOut := fun _ => "1920x1080",
          yt := fun _ => .failure }
        { inputFolder := "in", outputFolder := "out", backupFolder := "bak" }
        "src.mkv" "b.mkv" "00:05:00" "00:05:00" = .ok st ∧
        st.ready = false := by
  exact c9_nonpositive_duration _ _ "src.mkv" "b.mkv" "00:05:00" "00:05:00"
    "in/src.mkv" 300 300 (by decide) (by decide) (by decide) (by decide)
    (by decide)

/-- A string ending in `.mkv` does not end in `.mp3`. -/
theorem endsWith_mkv_not_mp3 (s : String)
    (h : pyEndsWith s ".mkv" = true) : pyEndsWith s ".mp3" = false := by
  simp only [pyEndsWith, decide_eq_true_eq] at h
  simp only [pyEndsWith, decide_eq_false_iff_not]
  intro hc
  have e1 : (".mkv" : String).data.length = 4 := rfl
  have e2 : (".mp3" : String).data.length = 4 := rfl
  rw [e1] at h
  rw [e2] at hc
  rw [h] at hc
  exact absurd hc (by decide)

/-- A concrete environment used by the witnesses: one input file on disk,
a probe reporting a 1080-class resolution, no index entries. -/
def envW : Env :=
  { onDisk := fun q => q == "in/src.mkv", size := fun _ => 0,
    mkvBasenames := [], probeOut := fun _ => "1920x1080",
    yt := fun _ => .failure }

/-- A concrete configuration used by the witnesses. -/
def cfgW : RConfig :=
  { inputFolder := "in", outputFolder := "out", backupFolder := "bak" }

/-! ## C5: option selection by output extension -/

/-- C5: an output path ending in `.mp3` gets the audio options plus a
title metadata tag equal to the output basename without extension; one
ending in `.mkv` gets the video options and exactly one `-vf` resize
filter, which scales to a fixed 720-line height with even width when the
probed dimension string contains `1080` and to the nearest even width and
height otherwise; any other extension adds no extra options. -/
theorem c5_option_selection (env : Env) (cfg : RConfig) (inp o : String) :
    (pyEndsWith (pjoin cfg.outputFolder o) ".mp3" = true →
      (set_output_file env cfg inp o).2 =
        base_options ++ audio_options ++
          ["-metadata title=\"" ++ titleOf (pjoin cfg.outputFolder o) ++ "\""])
    ∧ (pyEndsWith (pjoin cfg.outputFolder o) ".mkv" = true →
      (set_output_file env cfg inp o).2 =
        base_options ++ video_options ++ [resizeOption env inp]
      ∧ ((set_output_file env cfg inp o).2.countP
          (fun opt => pyStartsWith opt "-vf")) = 1
      ∧ (strContains "1080" (env.probeOut inp) = true →
          resizeOption env inp = "-vf \"scale=trunc(iw/2)*2:720\"")
      ∧ (strContains "1080" (env.probeOut inp) = false →
          resizeOption env inp = "-vf \"scale=trunc(iw/2)*2:trunc(ih/2)*2\""))
    ∧ (pyEndsWith (pjoin cfg.outputFolder o) ".mp3" = false →
       pyEndsWith (pjoin cfg.outputFolder o) ".mkv" = false →
      (set_output_file env cfg inp o).2 = base_options) := by
  refine ⟨?_, ?_, ?_⟩
  · intro h
    simp [set_output_file, h]
  · intro h
    have hm := endsWith_mkv_not_mp3 _ h
    refine ⟨by simp [set_output_file, h, hm], ?_, ?_, ?_⟩
    · by_cases hp : strContains "1080" (env.probeOut inp) = true
      · simp [set_output_file, h, hm, resizeOption, hp]
        decide
      · simp only [Bool.not_eq_true] at hp
        simp [set_output_file, h, hm, resizeOption, hp]
        decide
    · intro hp
      simp [resizeOption, hp]
    · intro hp
      simp [resizeOption, hp]
  · intro h1 h2
    simp [set_output_file, h1, h2]

/-- Witness for C5: under `cfgW`, `song.mp3` gets the audio options and
the title tag `song`; `b.mkv` (with a probe reporting `1920x1080`) gets
the video options and the fixed 720-line resize filter. -/
theorem c5_option_selection_witness :
    (set_output_file envW cfgW "in/src.mkv" "song.mp3").2 =
      base_options ++ audio_options ++ ["-metadata title=\"song\""]
    ∧ (set_output_file envW cfgW "in/src.mkv" "b.mkv").2 =
      base_options ++ video_options ++ ["-vf \"scale=trunc(iw/2)*2:720\""] := by
  have h1 := (c5_option_selection envW cfgW "in/src.mkv" "song.mp3").1
    (by decide)
  have h2 := (c5_option_selection envW cfgW "in/src.mkv" "b.mkv").2.1
    (by decide)
  exact ⟨h1.trans (by decide), h2.1.trans (by decide)⟩

/-- A line whose field count is not 4 is handled without an exception and
without touching `args` or `requesters` (at most a warning is logged). -/
theorem handleLine_not4 (env : Env) (cfg : RConfig) (ra : Bool)
    (st : GRState) (line : String)
    (h : (splitFields line).length ≠ 4) :
    ∃ st', handleLine env cfg ra st line = .ok st' ∧
      st'.requesters = st.requesters ∧ st'.args = st.args := by
  rcases hx : splitFields line with _ | ⟨a, _ | ⟨b, _ | ⟨c, _ | ⟨d, _ | ⟨f, tl⟩⟩⟩⟩⟩
  · exact ⟨st, by simp [handleLine, hx], rfl, rfl⟩
  · exact ⟨st, by simp [handleLine, hx], rfl, rfl⟩
  · exact ⟨st, by simp [handleLine, hx], rfl, rfl⟩
  · exact ⟨st, by simp [handleLine, hx], rfl, rfl⟩
  · exact absurd (by rw [hx]; rfl) h
  · refine ⟨{ st with log := st.log ++ [.checkDelimiters (a :: b :: c :: d :: f :: tl)] },
      ?_, rfl, rfl⟩
    have h5 : (a :: b :: c :: d :: f :: tl).length > 3 := by
      simp
    simp [handleLine, hx, h5]

/-! ## C2: which job-local errors are batch-local -/

/-- C2 counterexample: a malformed timestamp (`BAD` as endTime) raises a
`ValueError` that the `except AssertionError` handler of
`Requester.__init__` does not catch, so the whole batch aborts and the
following well-formed line is never processed; alone, that second line
yields one descriptor and one ready request. -/
theorem c2_malformed_timestamp_aborts_batch :
    processLines envW cfgW false
      ["a.mkv\t00:00:00\tBAD\tsrc.mkv", "b.mkv\t00:00:01\t00:00:02\tsrc.mkv"]
      initGR = .error .valueError
    ∧ (processLines envW cfgW false
        ["b.mkv\t00:00:01\t00:00:02\tsrc.mkv"] initGR).map
        (fun st => (st.args, st.requesters.length)) =
      .ok ([("src.mkv", "b.mkv", "00:00:01", "00:00:02")], 1) := by
  exact ⟨by decide, by decide⟩

/-- C2 (amended): an error localized to one job is batch-local when it is
a malformed line (field count other than 4) or a failure surfaced as an
`AssertionError` (missing input, non-positive duration): the remaining
lines are processed exactly as they would be, and the bad line contributes
no request. (Malformed timestamps instead raise an uncaught `ValueError`
that aborts the batch — see the counterexample.) -/
theorem c2_assertion_failures_are_local (env : Env) (cfg : RConfig)
    (line : String) (rest : List String) (st : GRState)
    (hc : pyStartsWith line "#" = false)
    (hstop : pyStartsWith line "STOP" = false)
    (hcase : (splitFields line).length ≠ 4 ∨
      ∃ o s e i r, splitFields line = [o, s, e, i] ∧
        existsQ env (sanitizeOutputName o) = false ∧
        mkRequester env cfg i (sanitizeOutputName o) s e = .ok r ∧
        r.ready = false) :
    ∃ st', processLines env cfg false (line :: rest) st =
        processLines env cfg false rest st' ∧
      st'.requesters = st.requesters := by
  rcases hcase with hlen | ⟨o, s, e, i, r, hsplit, hex, hmk, hnr⟩
  · obtain ⟨st', hst', hreq, _⟩ := handleLine_not4 env cfg false st line hlen
    exact ⟨st', by simp [processLines, hc, hstop, hst'], hreq⟩
  · refine ⟨{ st with args := st.args ++ [(i, sanitizeOutputName o, s, e)] },
      ?_, rfl⟩
    simp [processLines, hc, hstop, handleLine, hsplit, hex, hmk, hnr]

/-- Witness for C2 (amended): a job whose input file is missing (an
`AssertionError` inside `__init__`) leaves the rest of the batch intact
and produces no request. -/
theorem c2_assertion_failures_are_local_witness :
    ∃ st', processLines envW cfgW false
        ["c.mkv\t00:00:01\t00:00:02\tmissing.mkv"] initGR =
        processLines envW cfgW false [] st' ∧
      st'.requesters = initGR.requesters := by
  apply c2_assertion_failures_are_local envW cfgW
    "c.mkv\t00:00:01\t00:00:02\tmissing.mkv" [] initGR (by decide) (by decide)
  refine Or.inr ⟨"c.mkv", "00:00:01", "00:00:02", "missing.mkv",
    { input_filename := none, output_filename := "c.mkv", duration := "",
      start := "", options := base_options, ready := false },
    by decide, by decide, by decide, by decide⟩

/-! ## C4: a second run over already-produced outputs runs nothing -/

/-- C4: if every four-field job in the instruction list is either reported
by the Existing-Output Index, or builds into a request that is unready or
whose output path already exists on disk — exactly the situation of a
second run over an unchanged instruction file and a filesystem holding
all first-run outputs — then the batch collects no requester at all, so
the external tool is never invoked. -/
theorem c4_second_run_collects_no_requester (env : Env) (cfg : RConfig)
    (lines : List String) (st : GRState)
    (h : ∀ line ∈ lines, ∀ o s e i, splitFields line = [o, s, e, i] →
      existsQ env (sanitizeOutputName o) = true ∨
      ∃ r, mkRequester env cfg i (sanitizeOutputName o) s e = .ok r ∧
        (r.ready = false ∨ env.onDisk r.output_filename = true)) :
    ∃ st', processLines env cfg false lines st = .ok st' ∧
      st'.requesters = st.requesters := by
  induction lines generalizing st with
  | nil => exact ⟨st, rfl, rfl⟩
  | cons line rest ih =>
    have hrest : ∀ l ∈ rest, ∀ o s e i, splitFields l = [o, s, e, i] →
        existsQ env (sanitizeOutputName o) = true ∨
        ∃ r, mkRequester env cfg i (sanitizeOutputName o) s e = .ok r ∧
          (r.ready = false ∨ env.onDisk r.output_filename = true) :=
      fun l hl => h l (List.mem_cons_of_mem _ hl)
    by_cases hc : pyStartsWith line "#" = true
    · have := ih st hrest
      simpa [processLines, hc] using this
    · by_cases hstop : pyStartsWith line "STOP" = true
      · exact ⟨st, by simp [processLines, hc, hstop], rfl⟩
      · have hstep : ∃ st1, handleLine env cfg false st line = .ok st1 ∧
            st1.requesters = st.requesters := by
          by_cases h4 : (splitFields line).length = 4
          · obtain ⟨o, s, e, i, hsl⟩ :
                ∃ o s e i, splitFields line = [o, s, e, i] := by
              rcases hx : splitFields line with
                _ | ⟨a, _ | ⟨b, _ | ⟨c, _ | ⟨d, _ | ⟨f, tl⟩⟩⟩⟩⟩ <;>
                rw [hx] at h4 <;> simp at h4
              exact ⟨a, b, c, d, rfl⟩
            rcases h line (List.mem_cons_self _ _) o s e i hsl with
              hex | ⟨r, hmk, hcase⟩
            · exact ⟨{ st with
                  args := st.args ++ [(i, sanitizeOutputName o, s, e)] },
                by simp [handleLine, hsl, hex], rfl⟩
            · by_cases hex2 : existsQ env (sanitizeOutputName o) = true
              · exact ⟨{ st with
                    args := st.args ++ [(i, sanitizeOutputName o, s, e)] },
                  by simp [handleLine, hsl, hex2], rfl⟩
              · simp only [Bool.not_eq_true] at hex2
                rcases hcase with hnr | hod
                · exact ⟨{ st with
                      args := st.args ++ [(i, sanitizeOutputName o, s, e)] },
                    by simp [handleLine, hsl, hex2, hmk, hnr], rfl⟩
                · by_cases hrdy : r.ready = false
                  · exact ⟨{ st with
                        args := st.args ++ [(i, sanitizeOutputName o, s, e)] },
                      by simp [handleLine, hsl, hex2, hmk, hrdy], rfl⟩
                  · simp only [Bool.not_eq_false] at hrdy
                    by_cases hsz : env.size r.output_filename < 1024
                    · exact ⟨{ st with
                          args := st.args ++ [(i, sanitizeOutputName o, s, e)],
                          log := st.log ++
                            [.alreadyProcessed r.output_filename,
                             .pleaseCheck r.output_filename],
                          commands := st.commands ++ [line ++ "\n"] },
                        by simp [handleLine, hsl, hex2, hmk, hrdy, hod, hsz],
                        rfl⟩
                    · exact ⟨{ st with
                          args := st.args ++ [(i, sanitizeOutputName o, s, e)],
                          log := st.log ++
                            [.alreadyProcessed r.output_filename] },
                        by simp [handleLine, hsl, hex2, hmk, hrdy, hod, hsz],
                        rfl⟩
          · obtain ⟨st1, hst1, hreq, _⟩ :=
              handleLine_not4 env cfg false st line h4
            exact ⟨st1, hst1, hreq⟩
        obtain ⟨st1, hst1, hreq1⟩ := hstep
        obtain ⟨st', h1, h2⟩ := ih st1 hrest
        exact ⟨st', by simp [processLines, hc, hstop, hst1, h1],
          h2.trans hreq1⟩

/-- The environment of the C4 witness: the first output is known to the
Index by basename, the second already exists on disk. -/
def env4 : Env :=
  { onDisk := fun q => q == "in/src.mkv" || q == "out/c.mkv",
    size := fun _ => 2000, mkvBasenames := ["b.mkv"],
    probeOut := fun _ => "1920x1080", yt := fun _ => .failure }

/-- Witness for C4: with one job filtered by the Index basename lookup
and one by the on-disk existence check, the run collects no requester. -/
theorem c4_second_run_collects_no_requester_witness :
    ∃ st', processLines env4 cfgW false
        ["b.mkv\t00:00:01\t00:00:02\tsrc.mkv",
         "c.mkv\t00:00:01\t00:00:02\tsrc.mkv"] initGR = .ok st' ∧
      st'.requesters = initGR.requesters := by
  apply c4_second_run_collects_no_requester
  intro line hl o s e i hsp
  simp only [List.mem_cons, List.not_mem_nil, or_false] at hl
  rcases hl with rfl | rfl
  · rw [show splitFields "b.mkv\t00:00:01\t00:00:02\tsrc.mkv" =
      ["b.mkv", "00:00:01", "00:00:02", "src.mkv"] from by decide] at hsp
    simp only [List.cons.injEq, and_true] at hsp
    obtain ⟨rfl, rfl, rfl, rfl⟩ := hsp
    exact Or.inl (by decide)
  · rw [show splitFields "c.mkv\t00:00:01\t00:00:02\tsrc.mkv" =
      ["c.mkv", "00:00:01", "00:00:02", "src.mkv"] from by decide] at hsp
    simp only [List.cons.injEq, and_true] at hsp
    obtain ⟨rfl, rfl, rfl, rfl⟩ := hsp
    refine Or.inr ⟨Requester.mk (some "in/src.mkv") "out/c.mkv"
      "-t 00:00:01" "-ss 00:00:01"
      (base_options ++ (video_options ++ ["-vf \"scale=trunc(iw/2)*2:720\""]))
      true, by decide, Or.inr (by decide)⟩

/-! ## C1: the re-queued raw line never reaches the Backup Writer -/

/-- The environment of the C1 scenario: the job's input exists and its
output file already exists on disk with only 10 bytes (below the
1024-byte threshold); the Index holds nothing (it only collects `.mkv`
basenames, and the output here is an `.mp3`). -/
def env1 : Env :=
  { onDisk := fun p => p == "in/in.wav" || p == "out/song.mp3",
    size := fun p => if p == "out/song.mp3" then 10 else 2000,
    mkvBasenames := [], probeOut := fun _ => "",
    yt := fun _ => .failure }

/-- C1: for a job whose output file exists on disk below the 1024-byte
threshold, the loop does log the `Please check` warning, does re-queue the
original raw line (into the `commands` list local to `get_requesters`),
and collects no requester (so the tool is not invoked for that job) — but
that local list is discarded when `get_requesters` returns: `main` builds
its own `commands` from the collected requesters only, so the Backup
Writer receives nothing and the re-queued raw line never appears in the
backup content, contradicting the claim's final part. -/
theorem c1_requeued_line_never_persisted :
    (processLines env1 cfgW false
        ["song.mp3\t00:00:00\t00:00:00\tin.wav"] initGR).map
        (fun st => (st.commands, st.log, st.requesters.length)) =
      .ok (["song.mp3\t00:00:00\t00:00:00\tin.wav\n"],
        [.alreadyProcessed "out/song.mp3", .pleaseCheck "out/song.mp3"], 0)
    ∧ mainCommands env1 cfgW ["song.mp3\t00:00:00\t00:00:00\tin.wav"] = .ok []
    ∧ backupContent [] = "" := by
  exact ⟨by decide, by decide, rfl⟩

/-- Collapsing a run of two equal characters at the head. -/
theorem collapseRuns_cons_cons (c : Char) (ys : List Char) :
    collapseRuns c (c :: c :: ys) = collapseRuns c (c :: ys) := by
  simp [collapseRuns]

/-- Inserting one extra copy of `c` next to an existing one anywhere does
not change the collapsed result. -/
theorem collapseRuns_insert (c : Char) (xs ys : List Char) :
    collapseRuns c (xs ++ c :: c :: ys) = collapseRuns c (xs ++ c :: ys) := by
  induction xs with
  | nil => exact collapseRuns_cons_cons c ys
  | cons a xs ih =>
    cases xs with
    | nil =>
      simp [collapseRuns, collapseRuns_cons_cons]
    | cons b xs' =>
      simp only [List.cons_append] at ih ⊢
      rw [collapseRuns, collapseRuns]
      rw [ih]

/-- A double separating blank collapses to the same string as a single
one. -/
theorem collapseSpaces_mid (a b : String) :
    collapseSpaces (a ++ "  " ++ b) = collapseSpaces (a ++ " " ++ b) := by
  unfold collapseSpaces
  apply congrArg String.mk
  have h1 : (a ++ "  " ++ b).data = a.data ++ ' ' :: ' ' :: b.data := by
    simp [String.data_append]
  have h2 : (a ++ " " ++ b).data = a.data ++ ' ' :: b.data := by
    simp [String.data_append]
  rw [h1, h2]
  exact collapseRuns_insert ' ' a.data b.data

/-! ## C7: the synthesized command's fixed concatenation order -/

/-- C7: the command string of `Requester.run` is the fixed-order
concatenation described by the spec — tool name, seek option when
present, `-i` with the double-quoted input path, duration option when
present, the option list joined by single spaces, and the double-quoted
output path: the two agree exactly whenever both optional parts are
present, and in general up to the width of the separating blanks (the
code leaves a second blank where an absent option's empty placeholder
sat). -/
theorem c7_command_concatenation_order (r : Requester) :
    collapseSpaces (mkCommand r) = collapseSpaces (commandSpec r)
    ∧ (r.start ≠ "" → r.duration ≠ "" → mkCommand r = commandSpec r) := by
  by_cases hs : r.start = ""
  · by_cases hd : r.duration = ""
    · refine ⟨?_, fun h1 _ => absurd hs h1⟩
      have e1 : mkCommand r =
          "ffmpeg" ++ "  " ++ ("-i \"" ++ inputName r ++ "\"  " ++
            String.intercalate " " r.options ++ " \"" ++
            r.output_filename ++ "\"") := by
        apply String.ext
        simp [mkCommand, hs, hd, String.data_append]
      have e2 : "ffmpeg" ++ " " ++ ("-i \"" ++ inputName r ++ "\"  " ++
            String.intercalate " " r.options ++ " \"" ++
            r.output_filename ++ "\"") =
          ("ffmpeg -i \"" ++ inputName r ++ "\"") ++ "  " ++
            (String.intercalate " " r.options ++ " \"" ++
              r.output_filename ++ "\"") := by
        apply String.ext
        simp [String.data_append]
      have e3 : ("ffmpeg -i \"" ++ inputName r ++ "\"") ++ " " ++
            (String.intercalate " " r.options ++ " \"" ++
              r.output_filename ++ "\"") =
          commandSpec r := by
        apply String.ext
        simp [commandSpec, hs, hd, String.data_append]
      rw [e1, collapseSpaces_mid, e2, collapseSpaces_mid, e3]
    · refine ⟨?_, fun h1 _ => absurd hs h1⟩
      have e1 : mkCommand r =
          "ffmpeg" ++ "  " ++ ("-i \"" ++ inputName r ++ "\" " ++
            r.duration ++ " " ++ String.intercalate " " r.options ++
            " \"" ++ r.output_filename ++ "\"") := by
        apply String.ext
        simp [mkCommand, hs, String.data_append]
      have e2 : "ffmpeg" ++ " " ++ ("-i \"" ++ inputName r ++ "\" " ++
            r.duration ++ " " ++ String.intercalate " " r.options ++
            " \"" ++ r.output_filename ++ "\"") =
          commandSpec r := by
        apply String.ext
        simp [commandSpec, hs, hd, String.data_append]
      rw [e1, collapseSpaces_mid, e2]
  · by_cases hd : r.duration = ""
    · refine ⟨?_, fun _ h2 => absurd hd h2⟩
      have e1 : mkCommand r =
          ("ffmpeg " ++ r.start ++ " -i \"" ++ inputName r ++ "\"") ++
            "  " ++ (String.intercalate " " r.options ++ " \"" ++
              r.output_filename ++ "\"") := by
        apply String.ext
        simp [mkCommand, hd, String.data_append]
      have e2 : ("ffmpeg " ++ r.start ++ " -i \"" ++ inputName r ++ "\"") ++
            " " ++ (String.intercalate " " r.options ++ " \"" ++
              r.output_filename ++ "\"") =
          commandSpec r := by
        apply String.ext
        simp [commandSpec, hs, hd, String.data_append]
      rw [e1, collapseSpaces_mid, e2]
    · have e : mkCommand r = commandSpec r := by
        apply String.ext
        simp [mkCommand, commandSpec, hs, hd, String.data_append]
      exact ⟨by rw [e], fun _ _ => e⟩

/-- Witness for C7: with both a seek and a duration option present the
synthesized command equals the spec-ordered concatenation on the nose. -/
theorem c7_command_concatenation_order_witness :
    mkCommand (Requester.mk (some "in/a.mkv") "out/b.mkv" "-t 00:00:01"
      "-ss 00:00:05" ["-v quiet"] true) =
    commandSpec (Requester.mk (some "in/a.mkv") "out/b.mkv" "-t 00:00:01"
      "-ss 00:00:05" ["-v quiet"] true) :=
  (c7_command_concatenation_order _).2 (by decide) (by decide)

end FfmpegRequester
